import Mathlib

/-!
# The mechanism registrar `modl_reg` of `arm64/mod_func.cpp`

The translation unit declares two external `int` globals, eleven external
registration functions and one entry point, `modl_reg`.  The entry point tests
the two globals, optionally writes a banner to `stderr` with thirteen `fprintf`
calls, and then calls the eleven registration functions in a fixed order.

The embedding is a state-passing one.  A `World` holds the external memory (the
two globals plus whatever the host runtime keeps) and the ordered trace of the
observable events `modl_reg` itself performs.  The eleven registration functions
live outside the translation unit, so `modl_reg` takes their behaviour as a
parameter: an arbitrary transformer of the external memory per function.  They
are allowed to write the two globals, since the globals are `extern`; each call
is taken to return.  The trace records what `modl_reg` does, not what the
registration functions do inside.

The globals are C `int`s.  They are only compared, never computed with, so they
are embedded as `Int`; every 32-bit value is an `Int`.
-/

namespace ModFunc

/-- The eleven registration functions declared `extern` at lines 9 to 19. -/
inductive Reg
  | _CaDynamics_DC0_reg
  | _Ca_HVA2_reg
  | _Ca_LVAst_reg
  | _Ih_reg
  | _K_Pst_reg
  | _K_Tst_reg
  | _NaTg_reg
  | _Nap_Et2_reg
  | _SK_E2_reg
  | _SKv3_1_reg
  | _TTXDynamicsSwitch_reg
  deriving DecidableEq, Repr

/-- The C identifier of a registration function, as spelled in its declaration. -/
def Reg.symbol : Reg → String
  | ._CaDynamics_DC0_reg => "_CaDynamics_DC0_reg"
  | ._Ca_HVA2_reg => "_Ca_HVA2_reg"
  | ._Ca_LVAst_reg => "_Ca_LVAst_reg"
  | ._Ih_reg => "_Ih_reg"
  | ._K_Pst_reg => "_K_Pst_reg"
  | ._K_Tst_reg => "_K_Tst_reg"
  | ._NaTg_reg => "_NaTg_reg"
  | ._Nap_Et2_reg => "_Nap_Et2_reg"
  | ._SK_E2_reg => "_SK_E2_reg"
  | ._SKv3_1_reg => "_SKv3_1_reg"
  | ._TTXDynamicsSwitch_reg => "_TTXDynamicsSwitch_reg"

/-- The mechanism name `n` of the function `_n_reg`: its identifier without the
leading underscore and without the trailing `_reg`. -/
def Reg.mech (r : Reg) : String :=
  String.mk ((r.symbol.data.drop 1).reverse.drop 4).reverse

/-- External memory seen by the translation unit: the two `extern int` globals
of lines 3 and 4, and the state of the host runtime, of which nothing is known. -/
structure Mem (H : Type) where
  nrnmpi_myid : Int
  nrn_nobanner_ : Int
  host : H

/-- An observable event of `modl_reg`: one `fprintf(stderr, fmt)` with its
format string, or one call of a registration function. -/
inductive Event
  | fprintf_stderr (fmt : String)
  | call (f : Reg)
  deriving DecidableEq, Repr

/-- External memory together with the trace of events performed so far. -/
structure World (H : Type) where
  mem : Mem H
  trace : List Event

/-- Behaviour of the external registration functions: each one transforms the
external memory in a way this translation unit does not know. -/
abbrev Extern (H : Type) := Reg → Mem H → Mem H

/-- The statement `fprintf(stderr, fmt);`.  Every format string of the source is free of
conversion specifications, so the bytes written are the format string itself. -/
def fprintf_stderr {H : Type} (fmt : String) (w : World H) : World H :=
  { w with trace := w.trace ++ [Event.fprintf_stderr fmt] }

/-- The statement `f();` for a registration function `f`. -/
def invoke {H : Type} (ext : Extern H) (f : Reg) (w : World H) : World H :=
  { mem := ext f w.mem, trace := w.trace ++ [Event.call f] }

/-- C logical negation on `int`: `!x` is 1 when `x` is 0 and 0 otherwise. -/
def lnot (x : Int) : Int := if x = 0 then 1 else 0

/-- The body of the banner block, lines 23 to 35. -/
def banner {H : Type} (w : World H) : World H :=
  w
  |> fprintf_stderr "Additional mechanisms from files\n"
  |> fprintf_stderr " \"4846377e-b403-4fa8-bfd3-9b95506f9dc3/mechanisms/CaDynamics_DC0.mod\""
  |> fprintf_stderr " \"4846377e-b403-4fa8-bfd3-9b95506f9dc3/mechanisms/Ca_HVA2.mod\""
  |> fprintf_stderr " \"4846377e-b403-4fa8-bfd3-9b95506f9dc3/mechanisms/Ca_LVAst.mod\""
  |> fprintf_stderr " \"4846377e-b403-4fa8-bfd3-9b95506f9dc3/mechanisms/Ih.mod\""
  |> fprintf_stderr " \"4846377e-b403-4fa8-bfd3-9b95506f9dc3/mechanisms/K_Pst.mod\""
  |> fprintf_stderr " \"4846377e-b403-4fa8-bfd3-9b95506f9dc3/mechanisms/K_Tst.mod\""
  |> fprintf_stderr " \"4846377e-b403-4fa8-bfd3-9b95506f9dc3/mechanisms/NaTg.mod\""
  |> fprintf_stderr " \"4846377e-b403-4fa8-bfd3-9b95506f9dc3/mechanisms/Nap_Et2.mod\""
  |> fprintf_stderr " \"4846377e-b403-4fa8-bfd3-9b95506f9dc3/mechanisms/SK_E2.mod\""
  |> fprintf_stderr " \"4846377e-b403-4fa8-bfd3-9b95506f9dc3/mechanisms/SKv3_1.mod\""
  |> fprintf_stderr " \"4846377e-b403-4fa8-bfd3-9b95506f9dc3/mechanisms/TTXDynamicsSwitch.mod\""
  |> fprintf_stderr "\n"

/-- The eleven calls of lines 37 to 47. -/
def registrations {H : Type} (ext : Extern H) (w : World H) : World H :=
  w
  |> invoke ext ._CaDynamics_DC0_reg
  |> invoke ext ._Ca_HVA2_reg
  |> invoke ext ._Ca_LVAst_reg
  |> invoke ext ._Ih_reg
  |> invoke ext ._K_Pst_reg
  |> invoke ext ._K_Tst_reg
  |> invoke ext ._NaTg_reg
  |> invoke ext ._Nap_Et2_reg
  |> invoke ext ._SK_E2_reg
  |> invoke ext ._SKv3_1_reg
  |> invoke ext ._TTXDynamicsSwitch_reg

/-- The function `modl_reg`, lines 21 to 48:
`if (!nrn_nobanner_) if (nrnmpi_myid < 1) { banner }` and then the eleven calls. -/
def modl_reg {H : Type} (ext : Extern H) (w : World H) : World H :=
  let w1 :=
    if lnot w.mem.nrn_nobanner_ ≠ 0 then
      if w.mem.nrnmpi_myid < 1 then banner w else w
    else w
  registrations ext w1

/-! ## Observations on traces -/

/-- The events one call of `modl_reg` adds to the trace. -/
def emitted {H : Type} (ext : Extern H) (w : World H) : List Event :=
  (modl_reg ext w).trace.drop w.trace.length

/-- The format strings written to `stderr`, in order. -/
def writes : List Event → List String
  | [] => []
  | Event.fprintf_stderr s :: es => s :: writes es
  | Event.call _ :: es => writes es

/-- The registration functions called, in order. -/
def calls : List Event → List Reg
  | [] => []
  | Event.fprintf_stderr _ :: es => calls es
  | Event.call f :: es => f :: calls es

/-- The text on `stderr`: the concatenation of everything written. -/
def stderrText (es : List Event) : String :=
  String.mk ((writes es).map String.data).flatten

/-! ## Observations on the text -/

/-- The newline character, `\n` in the source. -/
def newline : Char := Char.ofNat 10

/-- The double quote character, `\"` in the source. -/
def dquote : Char := Char.ofNat 34

/-- The space character. -/
def space : Char := Char.ofNat 32

/-- Splits a text at every occurrence of `c`; the pieces do not contain `c`, and
a text with `k` occurrences has `k + 1` pieces. -/
def splitOnChar (c : Char) : List Char → List (List Char)
  | [] => [[]]
  | x :: xs =>
    if x = c then [] :: splitOnChar c xs
    else
      match splitOnChar c xs with
      | [] => [[x]]
      | l :: ls => (x :: l) :: ls

/-- The output lines of a text: its pieces between newline characters. -/
def outputLines (s : String) : List String :=
  (splitOnChar newline s.data).map String.mk

/-- Scanner behind `quoted`: `cur` is `none` outside double quotes and holds the
characters read so far (reversed) inside them. -/
def quotedAux : List Char → Option (List Char) → List String
  | [], _ => []
  | x :: xs, none => if x = dquote then quotedAux xs (some []) else quotedAux xs none
  | x :: xs, some cur =>
    if x = dquote then String.mk cur.reverse :: quotedAux xs none
    else quotedAux xs (some (x :: cur))

/-- The double-quoted entries of a text, in order, without their quotes. -/
def quoted (s : String) : List String := quotedAux s.data none

/-- Scanner behind `afterClosing`: `inside` tells whether an opening double quote
is pending. -/
def afterClosingAux : List Char → Bool → List (Option Char)
  | [], _ => []
  | x :: xs, false => if x = dquote then afterClosingAux xs true else afterClosingAux xs false
  | x :: xs, true => if x = dquote then xs.head? :: afterClosingAux xs false else afterClosingAux xs true

/-- For every double-quoted entry of a text, in order, the character that
immediately follows its closing double quote (`none` at the end of the text). -/
def afterClosing (s : String) : List (Option Char) := afterClosingAux s.data false

/-- Scanner behind `outside`: `cur` holds the characters of the current piece
(reversed), `inside` tells whether an opening double quote is pending. -/
def outsideAux : List Char → List Char → Bool → List String
  | [], cur, _ => [String.mk cur.reverse]
  | x :: xs, cur, false =>
    if x = dquote then String.mk cur.reverse :: outsideAux xs [] true
    else outsideAux xs (x :: cur) false
  | x :: xs, cur, true =>
    if x = dquote then outsideAux xs cur false else outsideAux xs cur true

/-- The pieces of a text that lie outside its double-quoted entries, in order:
what precedes the first entry, what separates consecutive entries, and what
follows the last one. -/
def outside (s : String) : List String := outsideAux s.data [] false

/-! ## The two event blocks, unrolled -/

/-- The thirteen events the banner block performs, in order. -/
def bannerEvents : List Event :=
  [ Event.fprintf_stderr "Additional mechanisms from files\n",
    Event.fprintf_stderr " \"4846377e-b403-4fa8-bfd3-9b95506f9dc3/mechanisms/CaDynamics_DC0.mod\"",
    Event.fprintf_stderr " \"4846377e-b403-4fa8-bfd3-9b95506f9dc3/mechanisms/Ca_HVA2.mod\"",
    Event.fprintf_stderr " \"4846377e-b403-4fa8-bfd3-9b95506f9dc3/mechanisms/Ca_LVAst.mod\"",
    Event.fprintf_stderr " \"4846377e-b403-4fa8-bfd3-9b95506f9dc3/mechanisms/Ih.mod\"",
    Event.fprintf_stderr " \"4846377e-b403-4fa8-bfd3-9b95506f9dc3/mechanisms/K_Pst.mod\"",
    Event.fprintf_stderr " \"4846377e-b403-4fa8-bfd3-9b95506f9dc3/mechanisms/K_Tst.mod\"",
    Event.fprintf_stderr " \"4846377e-b403-4fa8-bfd3-9b95506f9dc3/mechanisms/NaTg.mod\"",
    Event.fprintf_stderr " \"4846377e-b403-4fa8-bfd3-9b95506f9dc3/mechanisms/Nap_Et2.mod\"",
    Event.fprintf_stderr " \"4846377e-b403-4fa8-bfd3-9b95506f9dc3/mechanisms/SK_E2.mod\"",
    Event.fprintf_stderr " \"4846377e-b403-4fa8-bfd3-9b95506f9dc3/mechanisms/SKv3_1.mod\"",
    Event.fprintf_stderr " \"4846377e-b403-4fa8-bfd3-9b95506f9dc3/mechanisms/TTXDynamicsSwitch.mod\"",
    Event.fprintf_stderr "\n" ]

/-- The eleven events the registration block performs, in order. -/
def regEvents : List Event :=
  [ Event.call ._CaDynamics_DC0_reg, Event.call ._Ca_HVA2_reg, Event.call ._Ca_LVAst_reg,
    Event.call ._Ih_reg, Event.call ._K_Pst_reg, Event.call ._K_Tst_reg, Event.call ._NaTg_reg,
    Event.call ._Nap_Et2_reg, Event.call ._SK_E2_reg, Event.call ._SKv3_1_reg,
    Event.call ._TTXDynamicsSwitch_reg ]

/-! ## A concrete host runtime

A host whose state is the list of mechanisms registered so far; every
registration function appends itself and leaves the two globals alone. -/

/-- Registration functions that record themselves in the host table. -/
def recordingExtern : Extern (List Reg) :=
  fun f m => { m with host := m.host ++ [f] }

/-- Registration functions that record themselves and also overwrite both
globals, as external code is free to do. -/
def clobberingExtern : Extern (List Reg) :=
  fun f m => { nrnmpi_myid := 7, nrn_nobanner_ := 1, host := m.host ++ [f] }

/-- A fresh world with the given values of the two globals. -/
def World.init (nrnmpi_myid nrn_nobanner_ : Int) : World (List Reg) :=
  { mem := { nrnmpi_myid := nrnmpi_myid, nrn_nobanner_ := nrn_nobanner_, host := [] },
    trace := [] }

/-! ## Basic facts about the two blocks -/

theorem banner_mem {H : Type} (w : World H) : (banner w).mem = w.mem := rfl

theorem banner_trace {H : Type} (w : World H) :
    (banner w).trace = w.trace ++ bannerEvents := by
  simp [banner, fprintf_stderr, bannerEvents]

theorem registrations_trace {H : Type} (ext : Extern H) (w : World H) :
    (registrations ext w).trace = w.trace ++ regEvents := by
  simp [registrations, invoke, regEvents]

/-- The events of one call are a function of the two globals on entry alone. -/
theorem emitted_eq {H : Type} (ext : Extern H) (w : World H) :
    emitted ext w =
      (if w.mem.nrn_nobanner_ = 0 ∧ w.mem.nrnmpi_myid < 1 then bannerEvents else [])
        ++ regEvents := by
  unfold emitted modl_reg
  by_cases h0 : w.mem.nrn_nobanner_ = 0
  · by_cases h1 : w.mem.nrnmpi_myid < 1
    · simp [lnot, h0, h1, registrations_trace, banner_trace, List.append_assoc]
    · simp [lnot, h0, h1, registrations_trace]
  · simp [lnot, h0, registrations_trace]

/-- One call appends its events to the trace and removes nothing. -/
theorem modl_reg_trace {H : Type} (ext : Extern H) (w : World H) :
    (modl_reg ext w).trace = w.trace ++ emitted ext w := by
  rw [emitted_eq]
  unfold modl_reg
  by_cases h0 : w.mem.nrn_nobanner_ = 0
  · by_cases h1 : w.mem.nrnmpi_myid < 1
    · simp [lnot, h0, h1, registrations_trace, banner_trace, List.append_assoc]
    · simp [lnot, h0, h1, registrations_trace]
  · simp [lnot, h0, registrations_trace]

theorem writes_append (a b : List Event) : writes (a ++ b) = writes a ++ writes b := by
  induction a with
  | nil => rfl
  | cons e es ih => cases e <;> simp [writes, ih]

theorem calls_append (a b : List Event) : calls (a ++ b) = calls a ++ calls b := by
  induction a with
  | nil => rfl
  | cons e es ih => cases e <;> simp [calls, ih]

theorem stderrText_append (a b : List Event) :
    stderrText (a ++ b) = stderrText a ++ stderrText b := by
  simp [stderrText, writes_append, String.ext_iff]

theorem emitted_banner {H : Type} (ext : Extern H) (w : World H)
    (h0 : w.mem.nrn_nobanner_ = 0) (h1 : w.mem.nrnmpi_myid < 1) :
    emitted ext w = bannerEvents ++ regEvents := by
  rw [emitted_eq]; simp [h0, h1]

theorem emitted_quiet {H : Type} (ext : Extern H) (w : World H)
    (h : ¬ (w.mem.nrn_nobanner_ = 0 ∧ w.mem.nrnmpi_myid < 1)) :
    emitted ext w = regEvents := by
  rw [emitted_eq]; simp [h]

/-- The banner is on `stderr` exactly when the test of line 22 succeeds. -/
theorem text_ne_empty_iff {H : Type} (ext : Extern H) (w : World H) :
    stderrText (emitted ext w) ≠ "" ↔ w.mem.nrn_nobanner_ = 0 ∧ w.mem.nrnmpi_myid < 1 := by
  by_cases h : w.mem.nrn_nobanner_ = 0 ∧ w.mem.nrnmpi_myid < 1
  · rw [emitted_banner ext w h.1 h.2]
    simp only [h, and_self, iff_true]
    decide
  · rw [emitted_quiet ext w h]
    simp only [h, iff_false, not_not]
    decide

theorem emitted_of_text {H : Type} (ext : Extern H) (w : World H)
    (h : stderrText (emitted ext w) ≠ "") : emitted ext w = bannerEvents ++ regEvents :=
  emitted_banner ext w ((text_ne_empty_iff ext w).1 h).1 ((text_ne_empty_iff ext w).1 h).2

/-- None of the thirteen format strings holds a conversion specification, so
`fprintf` writes each of them verbatim. -/
theorem formats_verbatim : ∀ s ∈ writes bannerEvents, Char.ofNat 37 ∉ s.data := by
  decide

/-- The statements of `modl_reg` never write the external memory themselves: the
memory on return is the memory on entry passed through the eleven registration
functions, in order. -/
theorem modl_reg_mem {H : Type} (ext : Extern H) (w : World H) :
    (modl_reg ext w).mem =
      ext ._TTXDynamicsSwitch_reg (ext ._SKv3_1_reg (ext ._SK_E2_reg (ext ._Nap_Et2_reg
        (ext ._NaTg_reg (ext ._K_Tst_reg (ext ._K_Pst_reg (ext ._Ih_reg (ext ._Ca_LVAst_reg
          (ext ._Ca_HVA2_reg (ext ._CaDynamics_DC0_reg w.mem)))))))))) := by
  unfold modl_reg
  by_cases h0 : w.mem.nrn_nobanner_ = 0
  · by_cases h1 : w.mem.nrnmpi_myid < 1
    · simp [lnot, h0, h1, registrations, invoke, banner_mem]
    · simp [lnot, h0, h1, registrations, invoke]
  · simp [lnot, h0, registrations, invoke]

/-! ## The registration sequence and the banner text -/

/-- C1: for every value of the two globals and whatever the registration
functions do, one call of `modl_reg` calls the eleven registration functions in
the order CaDynamics_DC0, Ca_HVA2, Ca_LVAst, Ih, K_Pst, K_Tst, NaTg, Nap_Et2,
SK_E2, SKv3_1, TTXDynamicsSwitch, each exactly once and nothing else; these calls
are appended to the trace that existed on entry.  The calls are really made: the
external memory on return is the memory on entry passed through each of the
eleven functions once, in that order, which is also the order of the trace. -/
theorem modl_reg_calls_in_order {H : Type} (ext : Extern H) (w : World H) :
    calls (emitted ext w) =
        [Reg._CaDynamics_DC0_reg, Reg._Ca_HVA2_reg, Reg._Ca_LVAst_reg, Reg._Ih_reg,
         Reg._K_Pst_reg, Reg._K_Tst_reg, Reg._NaTg_reg, Reg._Nap_Et2_reg, Reg._SK_E2_reg,
         Reg._SKv3_1_reg, Reg._TTXDynamicsSwitch_reg]
      ∧ (calls (emitted ext w)).length = 11
      ∧ (∀ f : Reg, (calls (emitted ext w)).count f = 1)
      ∧ calls (modl_reg ext w).trace = calls w.trace ++ calls (emitted ext w)
      ∧ (modl_reg ext w).mem =
        ext ._TTXDynamicsSwitch_reg (ext ._SKv3_1_reg (ext ._SK_E2_reg (ext ._Nap_Et2_reg
          (ext ._NaTg_reg (ext ._K_Tst_reg (ext ._K_Pst_reg (ext ._Ih_reg (ext ._Ca_LVAst_reg
            (ext ._Ca_HVA2_reg (ext ._CaDynamics_DC0_reg w.mem))))))))))
      ∧ (modl_reg ext w).mem
        = (calls (emitted ext w)).foldl (fun m f => ext f m) w.mem := by
  have hc : calls (emitted ext w) = calls regEvents := by
    rw [emitted_eq]
    split_ifs
    · rfl
    · rfl
  have hm : ∀ v : World H, (modl_reg ext v).mem =
      ext ._TTXDynamicsSwitch_reg (ext ._SKv3_1_reg (ext ._SK_E2_reg (ext ._Nap_Et2_reg
        (ext ._NaTg_reg (ext ._K_Tst_reg (ext ._K_Pst_reg (ext ._Ih_reg (ext ._Ca_LVAst_reg
          (ext ._Ca_HVA2_reg (ext ._CaDynamics_DC0_reg v.mem)))))))))) := by
    intro v
    unfold modl_reg
    by_cases h0 : v.mem.nrn_nobanner_ = 0
    · by_cases h1 : v.mem.nrnmpi_myid < 1
      · simp [lnot, h0, h1, registrations, invoke, banner_mem]
      · simp [lnot, h0, h1, registrations, invoke]
    · simp [lnot, h0, registrations, invoke]
  refine ⟨?_, ?_, ?_, ?_, hm w, ?_⟩
  · rw [hc]; rfl
  · rw [hc]; rfl
  · intro f
    rw [hc]
    cases f <;> decide
  · rw [modl_reg_trace, calls_append]
  · rw [hc, hm w]; rfl

/-- Witness of C1 on the three scenarios: banner enabled on rank 0, banner
suppressed on rank 0, banner enabled on rank 3.  In each of them the host table,
empty on entry, holds the eleven mechanisms once each and in order on return. -/
theorem modl_reg_calls_in_order_witness :
    calls (emitted recordingExtern (World.init 0 0)) =
        [Reg._CaDynamics_DC0_reg, Reg._Ca_HVA2_reg, Reg._Ca_LVAst_reg, Reg._Ih_reg,
         Reg._K_Pst_reg, Reg._K_Tst_reg, Reg._NaTg_reg, Reg._Nap_Et2_reg, Reg._SK_E2_reg,
         Reg._SKv3_1_reg, Reg._TTXDynamicsSwitch_reg]
      ∧ calls (emitted recordingExtern (World.init 0 1))
        = calls (emitted recordingExtern (World.init 0 0))
      ∧ calls (emitted recordingExtern (World.init 3 0))
        = calls (emitted recordingExtern (World.init 0 0))
      ∧ (modl_reg recordingExtern (World.init 0 0)).mem.host =
        [Reg._CaDynamics_DC0_reg, Reg._Ca_HVA2_reg, Reg._Ca_LVAst_reg, Reg._Ih_reg,
         Reg._K_Pst_reg, Reg._K_Tst_reg, Reg._NaTg_reg, Reg._Nap_Et2_reg, Reg._SK_E2_reg,
         Reg._SKv3_1_reg, Reg._TTXDynamicsSwitch_reg]
      ∧ (modl_reg recordingExtern (World.init 0 1)).mem.host =
        [Reg._CaDynamics_DC0_reg, Reg._Ca_HVA2_reg, Reg._Ca_LVAst_reg, Reg._Ih_reg,
         Reg._K_Pst_reg, Reg._K_Tst_reg, Reg._NaTg_reg, Reg._Nap_Et2_reg, Reg._SK_E2_reg,
         Reg._SKv3_1_reg, Reg._TTXDynamicsSwitch_reg]
      ∧ (modl_reg recordingExtern (World.init 3 0)).mem.host =
        [Reg._CaDynamics_DC0_reg, Reg._Ca_HVA2_reg, Reg._Ca_LVAst_reg, Reg._Ih_reg,
         Reg._K_Pst_reg, Reg._K_Tst_reg, Reg._NaTg_reg, Reg._Nap_Et2_reg, Reg._SK_E2_reg,
         Reg._SKv3_1_reg, Reg._TTXDynamicsSwitch_reg] :=
  ⟨(modl_reg_calls_in_order recordingExtern (World.init 0 0)).1,
    ((modl_reg_calls_in_order recordingExtern (World.init 0 1)).1).trans
      (modl_reg_calls_in_order recordingExtern (World.init 0 0)).1.symm,
    ((modl_reg_calls_in_order recordingExtern (World.init 3 0)).1).trans
      (modl_reg_calls_in_order recordingExtern (World.init 0 0)).1.symm,
    congrArg Mem.host (modl_reg_calls_in_order recordingExtern (World.init 0 0)).2.2.2.2.1,
    by decide,
    by decide⟩

set_option maxRecDepth 100000 in
/-- C2: when `nrn_nobanner_` is 0 and `nrnmpi_myid` is below 1, the text one call
of `modl_reg` writes to `stderr` is the header, then the eleven path fragments in
the fixed order, then a newline, and nothing else. -/
theorem banner_text_exact {H : Type} (ext : Extern H) (w : World H)
    (h0 : w.mem.nrn_nobanner_ = 0) (h1 : w.mem.nrnmpi_myid < 1) :
    stderrText (emitted ext w) =
      "Additional mechanisms from files\n"
        ++ " \"4846377e-b403-4fa8-bfd3-9b95506f9dc3/mechanisms/CaDynamics_DC0.mod\""
        ++ " \"4846377e-b403-4fa8-bfd3-9b95506f9dc3/mechanisms/Ca_HVA2.mod\""
        ++ " \"4846377e-b403-4fa8-bfd3-9b95506f9dc3/mechanisms/Ca_LVAst.mod\""
        ++ " \"4846377e-b403-4fa8-bfd3-9b95506f9dc3/mechanisms/Ih.mod\""
        ++ " \"4846377e-b403-4fa8-bfd3-9b95506f9dc3/mechanisms/K_Pst.mod\""
        ++ " \"4846377e-b403-4fa8-bfd3-9b95506f9dc3/mechanisms/K_Tst.mod\""
        ++ " \"4846377e-b403-4fa8-bfd3-9b95506f9dc3/mechanisms/NaTg.mod\""
        ++ " \"4846377e-b403-4fa8-bfd3-9b95506f9dc3/mechanisms/Nap_Et2.mod\""
        ++ " \"4846377e-b403-4fa8-bfd3-9b95506f9dc3/mechanisms/SK_E2.mod\""
        ++ " \"4846377e-b403-4fa8-bfd3-9b95506f9dc3/mechanisms/SKv3_1.mod\""
        ++ " \"4846377e-b403-4fa8-bfd3-9b95506f9dc3/mechanisms/TTXDynamicsSwitch.mod\""
        ++ "\n" := by
  rw [emitted_banner ext w h0 h1]
  decide

/-- Witness of C2 on the primary process with the banner enabled. -/
theorem banner_text_exact_witness :
    (World.init 0 0).mem.nrn_nobanner_ = 0 ∧ (World.init 0 0).mem.nrnmpi_myid < 1 ∧
    stderrText (emitted recordingExtern (World.init 0 0)) =
      "Additional mechanisms from files\n"
        ++ " \"4846377e-b403-4fa8-bfd3-9b95506f9dc3/mechanisms/CaDynamics_DC0.mod\""
        ++ " \"4846377e-b403-4fa8-bfd3-9b95506f9dc3/mechanisms/Ca_HVA2.mod\""
        ++ " \"4846377e-b403-4fa8-bfd3-9b95506f9dc3/mechanisms/Ca_LVAst.mod\""
        ++ " \"4846377e-b403-4fa8-bfd3-9b95506f9dc3/mechanisms/Ih.mod\""
        ++ " \"4846377e-b403-4fa8-bfd3-9b95506f9dc3/mechanisms/K_Pst.mod\""
        ++ " \"4846377e-b403-4fa8-bfd3-9b95506f9dc3/mechanisms/K_Tst.mod\""
        ++ " \"4846377e-b403-4fa8-bfd3-9b95506f9dc3/mechanisms/NaTg.mod\""
        ++ " \"4846377e-b403-4fa8-bfd3-9b95506f9dc3/mechanisms/Nap_Et2.mod\""
        ++ " \"4846377e-b403-4fa8-bfd3-9b95506f9dc3/mechanisms/SK_E2.mod\""
        ++ " \"4846377e-b403-4fa8-bfd3-9b95506f9dc3/mechanisms/SKv3_1.mod\""
        ++ " \"4846377e-b403-4fa8-bfd3-9b95506f9dc3/mechanisms/TTXDynamicsSwitch.mod\""
        ++ "\n" :=
  ⟨rfl, by decide, banner_text_exact recordingExtern (World.init 0 0) rfl (by decide)⟩

/-- C3: `modl_reg` performs no write to `stderr` at all, and the text is empty,
whenever `nrn_nobanner_` is non-zero, whatever the rank, and also whenever
`nrn_nobanner_` is 0 and the rank is at least 1; text is written if and only if
`nrn_nobanner_` is 0 and `nrnmpi_myid` is below 1. -/
theorem no_text_when_suppressed {H : Type} (ext : Extern H) (w : World H) :
    (w.mem.nrn_nobanner_ ≠ 0 →
        writes (emitted ext w) = [] ∧ stderrText (emitted ext w) = "")
      ∧ (w.mem.nrn_nobanner_ = 0 → 1 ≤ w.mem.nrnmpi_myid →
        writes (emitted ext w) = [] ∧ stderrText (emitted ext w) = "")
      ∧ (stderrText (emitted ext w) ≠ "" ↔
        w.mem.nrn_nobanner_ = 0 ∧ w.mem.nrnmpi_myid < 1) := by
  refine ⟨?_, ?_, text_ne_empty_iff ext w⟩
  · intro h
    rw [emitted_quiet ext w (fun hc => h hc.1)]
    exact ⟨rfl, rfl⟩
  · intro _ h
    rw [emitted_quiet ext w (fun hc => absurd hc.2 (not_lt.mpr h))]
    exact ⟨rfl, rfl⟩

/-- Witness of C3: a negative suppression flag on rank 0, and a cleared flag on
rank 1, both leave `stderr` untouched. -/
theorem no_text_when_suppressed_witness :
    ((World.init 0 (-1)).mem.nrn_nobanner_ ≠ 0
        ∧ writes (emitted recordingExtern (World.init 0 (-1))) = []
        ∧ stderrText (emitted recordingExtern (World.init 0 (-1))) = "")
      ∧ ((World.init 1 0).mem.nrn_nobanner_ = 0 ∧ 1 ≤ (World.init 1 0).mem.nrnmpi_myid
        ∧ writes (emitted recordingExtern (World.init 1 0)) = []
        ∧ stderrText (emitted recordingExtern (World.init 1 0)) = "") :=
  ⟨⟨by decide,
      (no_text_when_suppressed recordingExtern (World.init 0 (-1))).1 (by decide)⟩,
    ⟨rfl, by decide,
      (no_text_when_suppressed recordingExtern (World.init 1 0)).2.1 rfl (by decide)⟩⟩

/-! ## The layout of the banner -/

set_option maxRecDepth 100000 in
/-- C4: whenever `modl_reg` writes the banner, the text holds exactly two
newline characters, one at index 32 where it ends the header line and one at
index 718, the last of the 719 characters; the text starts with the header line,
and all twenty-two double quotes of the eleven path entries lie strictly between
the two newlines, so the entries share one output line. -/
theorem banner_has_two_newlines {H : Type} (ext : Extern H) (w : World H)
    (h : stderrText (emitted ext w) ≠ "") :
    (stderrText (emitted ext w)).data.count newline = 2
      ∧ List.indexesOf newline (stderrText (emitted ext w)).data = [32, 718]
      ∧ (stderrText (emitted ext w)).data.length = 719
      ∧ (stderrText (emitted ext w)).data.take 33 = "Additional mechanisms from files\n".data
      ∧ (stderrText (emitted ext w)).data.getLast? = some newline
      ∧ (quoted (stderrText (emitted ext w))).length = 11
      ∧ (List.indexesOf dquote (stderrText (emitted ext w)).data).length = 22
      ∧ ∀ i ∈ List.indexesOf dquote (stderrText (emitted ext w)).data, 32 < i ∧ i < 718 := by
  rw [emitted_of_text ext w h]
  decide

set_option maxRecDepth 100000 in
/-- Witness of C4 on a negative rank with the banner enabled. -/
theorem banner_has_two_newlines_witness :
    stderrText (emitted recordingExtern (World.init (-2) 0)) ≠ ""
      ∧ (stderrText (emitted recordingExtern (World.init (-2) 0))).data.count newline = 2
      ∧ List.indexesOf newline
          (stderrText (emitted recordingExtern (World.init (-2) 0))).data = [32, 718] :=
  ⟨by decide,
    (banner_has_two_newlines recordingExtern (World.init (-2) 0) (by decide)).1,
    (banner_has_two_newlines recordingExtern (World.init (-2) 0) (by decide)).2.1⟩

set_option maxRecDepth 100000 in
/-- C5 as stated fails: with both globals 0 the banner is written, and the
character after the closing double quote of each of the first ten entries is a
space, not the opening double quote of the next entry. -/
theorem entries_not_adjacent :
    stderrText (emitted recordingExtern (World.init 0 0)) ≠ ""
      ∧ afterClosing (stderrText (emitted recordingExtern (World.init 0 0)))
          ≠ List.replicate 10 (some dquote) ++ [some newline]
      ∧ (afterClosing (stderrText (emitted recordingExtern (World.init 0 0)))).head?
          = some (some space) := by
  decide

set_option maxRecDepth 100000 in
/-- C5, amended: whenever `modl_reg` writes the banner, the closing double quote
of each of the first ten path entries is immediately followed by one space, and
the closing double quote of the last entry by the trailing newline; outside the
quoted entries the text consists of the header line plus one space, then exactly
one space between consecutive entries, then the trailing newline. -/
theorem entries_separated_by_one_space {H : Type} (ext : Extern H) (w : World H)
    (h : stderrText (emitted ext w) ≠ "") :
    afterClosing (stderrText (emitted ext w))
        = List.replicate 10 (some space) ++ [some newline]
      ∧ outside (stderrText (emitted ext w))
        = ["Additional mechanisms from files\n "] ++ List.replicate 10 " " ++ ["\n"]
      ∧ (quoted (stderrText (emitted ext w))).length = 11 := by
  rw [emitted_of_text ext w h]
  decide

set_option maxRecDepth 100000 in
/-- Witness of C5, amended, with both globals 0. -/
theorem entries_separated_by_one_space_witness :
    stderrText (emitted recordingExtern (World.init 0 0)) ≠ ""
      ∧ afterClosing (stderrText (emitted recordingExtern (World.init 0 0)))
        = List.replicate 10 (some space) ++ [some newline] :=
  ⟨by decide,
    (entries_separated_by_one_space recordingExtern (World.init 0 0) (by decide)).1⟩

set_option maxRecDepth 100000 in
/-- C6 as stated fails: with both globals 0 the banner is written, and its
output lines are not the header followed by eleven lines that each hold one
quoted path; the text has three pieces between newlines, and the second one
holds all eleven paths. -/
theorem not_one_line_per_mechanism :
    stderrText (emitted recordingExtern (World.init 0 0)) ≠ ""
      ∧ (¬ ∃ ls rest : List String,
          outputLines (stderrText (emitted recordingExtern (World.init 0 0)))
              = "Additional mechanisms from files" :: (ls ++ rest)
            ∧ ls.length = 11 ∧ ∀ l ∈ ls, (quoted l).length = 1)
      ∧ (outputLines (stderrText (emitted recordingExtern (World.init 0 0)))).length = 3
      ∧ ((outputLines (stderrText (emitted recordingExtern (World.init 0 0)))).drop 1).map
          (fun l => (quoted l).length) = [11, 0] := by
  refine ⟨by decide, ?_, by decide, by decide⟩
  rintro ⟨ls, rest, hl, h11, -⟩
  have hlen : (outputLines (stderrText (emitted recordingExtern (World.init 0 0)))).length
      = 3 := by decide
  rw [hl] at hlen
  simp only [List.length_cons, List.length_append] at hlen
  omega

set_option maxRecDepth 100000 in
/-- C6, amended: whenever `modl_reg` writes the banner, splitting the text at
newline characters yields the header, then one single line that holds all eleven
path entries in the fixed order, each in double quotes and preceded by a space,
then the empty piece after the final newline. -/
theorem banner_is_header_and_one_line {H : Type} (ext : Extern H) (w : World H)
    (h : stderrText (emitted ext w) ≠ "") :
    outputLines (stderrText (emitted ext w)) =
        ["Additional mechanisms from files",
         ""
          ++ " \"4846377e-b403-4fa8-bfd3-9b95506f9dc3/mechanisms/CaDynamics_DC0.mod\""
          ++ " \"4846377e-b403-4fa8-bfd3-9b95506f9dc3/mechanisms/Ca_HVA2.mod\""
          ++ " \"4846377e-b403-4fa8-bfd3-9b95506f9dc3/mechanisms/Ca_LVAst.mod\""
          ++ " \"4846377e-b403-4fa8-bfd3-9b95506f9dc3/mechanisms/Ih.mod\""
          ++ " \"4846377e-b403-4fa8-bfd3-9b95506f9dc3/mechanisms/K_Pst.mod\""
          ++ " \"4846377e-b403-4fa8-bfd3-9b95506f9dc3/mechanisms/K_Tst.mod\""
          ++ " \"4846377e-b403-4fa8-bfd3-9b95506f9dc3/mechanisms/NaTg.mod\""
          ++ " \"4846377e-b403-4fa8-bfd3-9b95506f9dc3/mechanisms/Nap_Et2.mod\""
          ++ " \"4846377e-b403-4fa8-bfd3-9b95506f9dc3/mechanisms/SK_E2.mod\""
          ++ " \"4846377e-b403-4fa8-bfd3-9b95506f9dc3/mechanisms/SKv3_1.mod\""
          ++ " \"4846377e-b403-4fa8-bfd3-9b95506f9dc3/mechanisms/TTXDynamicsSwitch.mod\"",
         ""]
      ∧ ((outputLines (stderrText (emitted ext w))).map quoted) =
        [[],
         ["4846377e-b403-4fa8-bfd3-9b95506f9dc3/mechanisms/CaDynamics_DC0.mod",
          "4846377e-b403-4fa8-bfd3-9b95506f9dc3/mechanisms/Ca_HVA2.mod",
          "4846377e-b403-4fa8-bfd3-9b95506f9dc3/mechanisms/Ca_LVAst.mod",
          "4846377e-b403-4fa8-bfd3-9b95506f9dc3/mechanisms/Ih.mod",
          "4846377e-b403-4fa8-bfd3-9b95506f9dc3/mechanisms/K_Pst.mod",
          "4846377e-b403-4fa8-bfd3-9b95506f9dc3/mechanisms/K_Tst.mod",
          "4846377e-b403-4fa8-bfd3-9b95506f9dc3/mechanisms/NaTg.mod",
          "4846377e-b403-4fa8-bfd3-9b95506f9dc3/mechanisms/Nap_Et2.mod",
          "4846377e-b403-4fa8-bfd3-9b95506f9dc3/mechanisms/SK_E2.mod",
          "4846377e-b403-4fa8-bfd3-9b95506f9dc3/mechanisms/SKv3_1.mod",
          "4846377e-b403-4fa8-bfd3-9b95506f9dc3/mechanisms/TTXDynamicsSwitch.mod"],
         []] := by
  rw [emitted_of_text ext w h]
  decide

set_option maxRecDepth 100000 in
/-- Witness of C6, amended, with both globals 0. -/
theorem banner_is_header_and_one_line_witness :
    stderrText (emitted recordingExtern (World.init 0 0)) ≠ ""
      ∧ ((outputLines (stderrText (emitted recordingExtern (World.init 0 0)))).map quoted) =
        [[],
         ["4846377e-b403-4fa8-bfd3-9b95506f9dc3/mechanisms/CaDynamics_DC0.mod",
          "4846377e-b403-4fa8-bfd3-9b95506f9dc3/mechanisms/Ca_HVA2.mod",
          "4846377e-b403-4fa8-bfd3-9b95506f9dc3/mechanisms/Ca_LVAst.mod",
          "4846377e-b403-4fa8-bfd3-9b95506f9dc3/mechanisms/Ih.mod",
          "4846377e-b403-4fa8-bfd3-9b95506f9dc3/mechanisms/K_Pst.mod",
          "4846377e-b403-4fa8-bfd3-9b95506f9dc3/mechanisms/K_Tst.mod",
          "4846377e-b403-4fa8-bfd3-9b95506f9dc3/mechanisms/NaTg.mod",
          "4846377e-b403-4fa8-bfd3-9b95506f9dc3/mechanisms/Nap_Et2.mod",
          "4846377e-b403-4fa8-bfd3-9b95506f9dc3/mechanisms/SK_E2.mod",
          "4846377e-b403-4fa8-bfd3-9b95506f9dc3/mechanisms/SKv3_1.mod",
          "4846377e-b403-4fa8-bfd3-9b95506f9dc3/mechanisms/TTXDynamicsSwitch.mod"],
         []] :=
  ⟨by decide,
    (banner_is_header_and_one_line recordingExtern (World.init 0 0) (by decide)).2⟩

set_option maxRecDepth 100000 in
/-- C7: whenever `modl_reg` writes the banner, the i-th quoted path of the text
is the fixed directory, then the name `n`, then `.mod`, where `_n_reg` is the
i-th registration function called; both lists have eleven entries and no
duplicates, and a path is in the banner exactly when its function is called. -/
theorem banner_matches_registrations {H : Type} (ext : Extern H) (w : World H)
    (h : stderrText (emitted ext w) ≠ "") :
    quoted (stderrText (emitted ext w)) =
        (calls (emitted ext w)).map
          (fun f => "4846377e-b403-4fa8-bfd3-9b95506f9dc3/mechanisms/" ++ f.mech ++ ".mod")
      ∧ (∀ f : Reg, f.symbol = "_" ++ f.mech ++ "_reg")
      ∧ (quoted (stderrText (emitted ext w))).length = 11
      ∧ (calls (emitted ext w)).length = 11
      ∧ (quoted (stderrText (emitted ext w))).Nodup
      ∧ (calls (emitted ext w)).Nodup
      ∧ (∀ f : Reg,
          ("4846377e-b403-4fa8-bfd3-9b95506f9dc3/mechanisms/" ++ f.mech ++ ".mod")
              ∈ quoted (stderrText (emitted ext w))
            ↔ f ∈ calls (emitted ext w)) := by
  rw [emitted_of_text ext w h]
  refine ⟨by decide, ?_, by decide, by decide, by decide, by decide, ?_⟩
  · intro f
    cases f <;> decide
  · intro f
    cases f <;> decide

set_option maxRecDepth 100000 in
/-- Witness of C7 with both globals 0. -/
theorem banner_matches_registrations_witness :
    stderrText (emitted recordingExtern (World.init 0 0)) ≠ ""
      ∧ quoted (stderrText (emitted recordingExtern (World.init 0 0))) =
        (calls (emitted recordingExtern (World.init 0 0))).map
          (fun f => "4846377e-b403-4fa8-bfd3-9b95506f9dc3/mechanisms/" ++ f.mech ++ ".mod") :=
  ⟨by decide,
    (banner_matches_registrations recordingExtern (World.init 0 0) (by decide)).1⟩

/-! ## Repetition, ordering and the frame -/

/-- C8: when the two globals hold the same values after the first call as on
entry, two calls of `modl_reg` in succession perform the events of a single call
twice over: the second call repeats the first, the calls made are the eleven of
one call followed by the same eleven, and the text on `stderr` is the text of
one call written twice.  The calls are really made in both rounds: the external
memory after the second call is the memory on entry passed through the eleven
registration functions in order and then through the same eleven again. -/
theorem modl_reg_twice {H : Type} (ext : Extern H) (w : World H)
    (hb : (modl_reg ext w).mem.nrn_nobanner_ = w.mem.nrn_nobanner_)
    (hi : (modl_reg ext w).mem.nrnmpi_myid = w.mem.nrnmpi_myid) :
    emitted ext (modl_reg ext w) = emitted ext w
      ∧ (modl_reg ext (modl_reg ext w)).trace = w.trace ++ emitted ext w ++ emitted ext w
      ∧ calls ((modl_reg ext (modl_reg ext w)).trace.drop w.trace.length)
        = calls (emitted ext w) ++ calls (emitted ext w)
      ∧ (calls (emitted ext w)).length = 11
      ∧ stderrText ((modl_reg ext (modl_reg ext w)).trace.drop w.trace.length)
        = stderrText (emitted ext w) ++ stderrText (emitted ext w)
      ∧ calls (emitted ext w) =
        [Reg._CaDynamics_DC0_reg, Reg._Ca_HVA2_reg, Reg._Ca_LVAst_reg, Reg._Ih_reg,
         Reg._K_Pst_reg, Reg._K_Tst_reg, Reg._NaTg_reg, Reg._Nap_Et2_reg, Reg._SK_E2_reg,
         Reg._SKv3_1_reg, Reg._TTXDynamicsSwitch_reg]
      ∧ (modl_reg ext (modl_reg ext w)).mem
        = ([Reg._CaDynamics_DC0_reg, Reg._Ca_HVA2_reg, Reg._Ca_LVAst_reg, Reg._Ih_reg,
             Reg._K_Pst_reg, Reg._K_Tst_reg, Reg._NaTg_reg, Reg._Nap_Et2_reg, Reg._SK_E2_reg,
             Reg._SKv3_1_reg, Reg._TTXDynamicsSwitch_reg]
            ++ [Reg._CaDynamics_DC0_reg, Reg._Ca_HVA2_reg, Reg._Ca_LVAst_reg, Reg._Ih_reg,
             Reg._K_Pst_reg, Reg._K_Tst_reg, Reg._NaTg_reg, Reg._Nap_Et2_reg, Reg._SK_E2_reg,
             Reg._SKv3_1_reg, Reg._TTXDynamicsSwitch_reg]).foldl
          (fun m f => ext f m) w.mem
      ∧ (modl_reg ext (modl_reg ext w)).mem
        = (calls ((modl_reg ext (modl_reg ext w)).trace.drop w.trace.length)).foldl
          (fun m f => ext f m) w.mem := by
  have hsame : emitted ext (modl_reg ext w) = emitted ext w := by
    rw [emitted_eq ext (modl_reg ext w), emitted_eq ext w, hb, hi]
  have htrace : (modl_reg ext (modl_reg ext w)).trace
      = w.trace ++ (emitted ext w ++ emitted ext w) := by
    rw [modl_reg_trace ext (modl_reg ext w), hsame, modl_reg_trace ext w, List.append_assoc]
  have hc : calls (emitted ext w) = calls regEvents := by
    rw [emitted_eq]
    split_ifs
    · rfl
    · rfl
  have hm : ∀ v : World H, (modl_reg ext v).mem =
      ext ._TTXDynamicsSwitch_reg (ext ._SKv3_1_reg (ext ._SK_E2_reg (ext ._Nap_Et2_reg
        (ext ._NaTg_reg (ext ._K_Tst_reg (ext ._K_Pst_reg (ext ._Ih_reg (ext ._Ca_LVAst_reg
          (ext ._Ca_HVA2_reg (ext ._CaDynamics_DC0_reg v.mem)))))))))) := by
    intro v
    unfold modl_reg
    by_cases h0 : v.mem.nrn_nobanner_ = 0
    · by_cases h1 : v.mem.nrnmpi_myid < 1
      · simp [lnot, h0, h1, registrations, invoke, banner_mem]
      · simp [lnot, h0, h1, registrations, invoke]
    · simp [lnot, h0, registrations, invoke]
  have hmem : (modl_reg ext (modl_reg ext w)).mem
      = (calls regEvents ++ calls regEvents).foldl (fun m f => ext f m) w.mem := by
    rw [hm (modl_reg ext w), hm w]
    rfl
  refine ⟨hsame, ?_, ?_, ?_, ?_, ?_, hmem, ?_⟩
  · rw [htrace, List.append_assoc]
  · rw [htrace, List.drop_left, calls_append]
  · rw [hc]; rfl
  · rw [htrace, List.drop_left, stderrText_append]
  · rw [hc]; rfl
  · rw [htrace, List.drop_left, calls_append, hc]
    exact hmem

set_option maxRecDepth 100000 in
/-- Witness of C8: two calls on rank 0 with the banner enabled, the registration
functions recording themselves in the host table.  The banner is written, so the
doubled text is not empty; the host table holds the eleven mechanisms after the
first call and the eleven followed by the same eleven after the second. -/
theorem modl_reg_twice_witness :
    (modl_reg recordingExtern (World.init 0 0)).mem.nrn_nobanner_
        = (World.init 0 0).mem.nrn_nobanner_
      ∧ (modl_reg recordingExtern (World.init 0 0)).mem.nrnmpi_myid
        = (World.init 0 0).mem.nrnmpi_myid
      ∧ emitted recordingExtern (modl_reg recordingExtern (World.init 0 0))
        = emitted recordingExtern (World.init 0 0)
      ∧ stderrText
          ((modl_reg recordingExtern (modl_reg recordingExtern (World.init 0 0))).trace.drop
            (World.init 0 0).trace.length)
        = stderrText (emitted recordingExtern (World.init 0 0))
          ++ stderrText (emitted recordingExtern (World.init 0 0))
      ∧ stderrText (emitted recordingExtern (World.init 0 0)) ≠ ""
      ∧ (modl_reg recordingExtern (World.init 0 0)).mem.host =
        [Reg._CaDynamics_DC0_reg, Reg._Ca_HVA2_reg, Reg._Ca_LVAst_reg, Reg._Ih_reg,
         Reg._K_Pst_reg, Reg._K_Tst_reg, Reg._NaTg_reg, Reg._Nap_Et2_reg, Reg._SK_E2_reg,
         Reg._SKv3_1_reg, Reg._TTXDynamicsSwitch_reg]
      ∧ (modl_reg recordingExtern (modl_reg recordingExtern (World.init 0 0))).mem.host =
        [Reg._CaDynamics_DC0_reg, Reg._Ca_HVA2_reg, Reg._Ca_LVAst_reg, Reg._Ih_reg,
             Reg._K_Pst_reg, Reg._K_Tst_reg, Reg._NaTg_reg, Reg._Nap_Et2_reg, Reg._SK_E2_reg,
             Reg._SKv3_1_reg, Reg._TTXDynamicsSwitch_reg]
          ++ [Reg._CaDynamics_DC0_reg, Reg._Ca_HVA2_reg, Reg._Ca_LVAst_reg, Reg._Ih_reg,
             Reg._K_Pst_reg, Reg._K_Tst_reg, Reg._NaTg_reg, Reg._Nap_Et2_reg, Reg._SK_E2_reg,
             Reg._SKv3_1_reg, Reg._TTXDynamicsSwitch_reg] :=
  ⟨by decide, by decide,
    (modl_reg_twice recordingExtern (World.init 0 0) (by decide) (by decide)).1,
    (modl_reg_twice recordingExtern (World.init 0 0) (by decide) (by decide)).2.2.2.2.1,
    by decide,
    by decide,
    congrArg Mem.host
      (modl_reg_twice recordingExtern (World.init 0 0) (by decide) (by decide)).2.2.2.2.2.2.1⟩

set_option maxRecDepth 100000 in
/-- The condition of C8 on the globals is needed for the text: registration
functions that overwrite the globals make the second call silent after a first
call that wrote the banner, while the calls made are still the same eleven. -/
theorem second_call_after_clobbering :
    stderrText (emitted clobberingExtern (World.init 0 0)) ≠ ""
      ∧ stderrText (emitted clobberingExtern (modl_reg clobberingExtern (World.init 0 0))) = ""
      ∧ calls (emitted clobberingExtern (modl_reg clobberingExtern (World.init 0 0)))
        = calls (emitted clobberingExtern (World.init 0 0)) := by
  decide

/-- C9: in the events of one call of `modl_reg` every write to `stderr` comes
before every call of a registration function: the events are the writes followed
by the calls, the first call is `_CaDynamics_DC0_reg`, and nothing is written
from that call onwards.  What is written is decided by the two globals on entry
alone: any other registration functions, host state and earlier trace give the
same writes for the same two values. -/
theorem writes_precede_calls {H H2 : Type} (ext : Extern H) (w : World H)
    (ext2 : Extern H2) (host2 : H2) (trace2 : List Event) :
    emitted ext w
        = (writes (emitted ext w)).map Event.fprintf_stderr
          ++ (calls (emitted ext w)).map Event.call
      ∧ (calls (emitted ext w)).head? = some Reg._CaDynamics_DC0_reg
      ∧ writes ((emitted ext w).dropWhile
          (fun e => decide (e ≠ Event.call Reg._CaDynamics_DC0_reg))) = []
      ∧ writes (emitted ext2
          { mem := { nrnmpi_myid := w.mem.nrnmpi_myid, nrn_nobanner_ := w.mem.nrn_nobanner_,
                     host := host2 },
            trace := trace2 })
        = writes (emitted ext w) := by
  refine ⟨?_, ?_, ?_, ?_⟩
  · rw [emitted_eq]
    split_ifs
    · rfl
    · rfl
  · rw [emitted_eq]
    split_ifs
    · rfl
    · rfl
  · rw [emitted_eq]
    split_ifs
    · decide
    · decide
  · rw [emitted_eq ext2, emitted_eq ext w]

/-- C10: when every registration function leaves the two globals alone, the
values of `nrn_nobanner_` and `nrnmpi_myid` after `modl_reg` returns are their
values on entry, whichever branch of the banner test was taken. -/
theorem modl_reg_preserves_globals {H : Type} (ext : Extern H) (w : World H)
    (hext : ∀ (f : Reg) (m : Mem H),
      (ext f m).nrn_nobanner_ = m.nrn_nobanner_ ∧ (ext f m).nrnmpi_myid = m.nrnmpi_myid) :
    (modl_reg ext w).mem.nrn_nobanner_ = w.mem.nrn_nobanner_
      ∧ (modl_reg ext w).mem.nrnmpi_myid = w.mem.nrnmpi_myid := by
  rw [modl_reg_mem]
  constructor
  · simp only [(hext _ _).1]
  · simp only [(hext _ _).2]

/-- Witness of C10 on both branches: the banner branch with both globals 0, and
the silent branch with the suppression flag set on rank 3. -/
theorem modl_reg_preserves_globals_witness :
    (∀ (f : Reg) (m : Mem (List Reg)),
        (recordingExtern f m).nrn_nobanner_ = m.nrn_nobanner_
          ∧ (recordingExtern f m).nrnmpi_myid = m.nrnmpi_myid)
      ∧ ((modl_reg recordingExtern (World.init 0 0)).mem.nrn_nobanner_ = 0
        ∧ (modl_reg recordingExtern (World.init 0 0)).mem.nrnmpi_myid = 0)
      ∧ ((modl_reg recordingExtern (World.init 3 1)).mem.nrn_nobanner_ = 1
        ∧ (modl_reg recordingExtern (World.init 3 1)).mem.nrnmpi_myid = 3) :=
  ⟨fun _ _ => ⟨rfl, rfl⟩,
    modl_reg_preserves_globals recordingExtern (World.init 0 0) (fun _ _ => ⟨rfl, rfl⟩),
    modl_reg_preserves_globals recordingExtern (World.init 3 1) (fun _ _ => ⟨rfl, rfl⟩)⟩

end ModFunc
